import Mathlib

/-!
Verification of the automacs job-state, checkpoint-continuation, and
remote-synchronization subsystem (`amx/cli.py`, `runner/loadstate.py`).

The Python code is shallowly embedded: the state document (a JSON dict) becomes
the structure `StateDoc`, where an `Option` field models presence or absence of
the corresponding dictionary key; external processes (rsync transfers) are
modelled by their exit codes passed as parameters; filesystem listings are
lists of `FsEntry` records carrying a name and a modification time; every
`state_set_and_save` call is recorded as a snapshot appended to a `saves` list.
-/

namespace Amx

/-- A transfer record as written by `upload` (`{to, when}`) and `download`
(`{from, to, when}`).  `src` models the optional `from` key. -/
structure SyncRecord where
  src : Option String := none
  dest : String := ""
  when : String := ""
deriving Repr, DecidableEq

/-- One entry of `history_gmx`: `{call, flags}` with flags kept in insertion
order. -/
structure GmxCall where
  call : String := ""
  flags : List (String × String) := []
deriving Repr, DecidableEq

/-- The state document.  `Option` fields model dictionary keys that may be
absent; `here` uses the empty string for an absent or falsy step path, since
the code only ever tests its truthiness. -/
structure StateDoc where
  here : String := ""
  serial : Option Nat := none
  upload : Option SyncRecord := none
  upload_history : Option (List SyncRecord) := none
  history_gmx : List GmxCall := []
  gmxpaths : List (String × String) := []
deriving Repr, DecidableEq

/-- A filesystem entry: basename, modification time, and whether it is a
directory (`os.path.isdir`). -/
structure FsEntry where
  name : String
  mtime : Nat
  isDir : Bool := true
deriving Repr, DecidableEq

/-- `l[-1]` on a Python list: the last element, if any. -/
def lastElem {α : Type} : List α → Option α
  | [] => none
  | [a] => some a
  | _ :: b :: t => lastElem (b :: t)

/-- Ordering key of `sorted(dns, key=lambda x: os.path.getmtime(x))`
(cli.py line 577): modification time only. -/
def mtLe (a b : FsEntry) : Prop := a.mtime ≤ b.mtime

instance : DecidableRel mtLe := fun a b => Nat.decLe a.mtime b.mtime

instance : IsTotal FsEntry mtLe := ⟨fun a b => Nat.le_total a.mtime b.mtime⟩

instance : IsTrans FsEntry mtLe := ⟨fun _ _ _ hab hbc => Nat.le_trans hab hbc⟩

/-- Python `sorted` by mtime: a stable sort, modelled by insertion sort with
the non-strict comparison (equal keys keep their original order). -/
def sortByMtime (l : List FsEntry) : List FsEntry := List.insertionSort mtLe l

/-- `re.match(r"s\d+-.+", fn)`: the name starts with `s`, one or more digits,
a dash, and at least one further character. -/
def stepNameMatch (s : String) : Bool :=
  match s.toList with
  | [] => false
  | c :: rest =>
    c == 's' &&
    !(rest.takeWhile Char.isDigit).isEmpty &&
    (match rest.dropWhile Char.isDigit with
     | d :: more => d == '-' && !more.isEmpty
     | [] => false)

/-- Numeric value of the digit run following the leading `s` of a step
directory name. -/
def seqNum (s : String) : Nat :=
  ((s.toList.drop 1).takeWhile Char.isDigit).foldl (fun n c => 10 * n + (c.toNat - 48)) 0

/-- The step-directory glob and sort of `hardstart` (cli.py lines 576-578):
filter names matching the step pattern that are directories, sort by
modification time, take the last, and append the path separator
(`os.path.join(dns[-1], '')`). -/
def locate_step (entries : List FsEntry) : Option String :=
  Option.map (fun e => e.name ++ "/")
    (lastElem (sortByMtime (entries.filter (fun e => stepNameMatch e.name && e.isDir))))

/-- Ordering asserted by the specification for the step locator: numeric
sequence prefix ascending with modification time as tie-break. -/
def seqOrder (a b : FsEntry) : Prop :=
  seqNum a.name < seqNum b.name ∨ (seqNum a.name = seqNum b.name ∧ a.mtime ≤ b.mtime)

instance : DecidableRel seqOrder := fun a b =>
  inferInstanceAs (Decidable (seqNum a.name < seqNum b.name ∨
    (seqNum a.name = seqNum b.name ∧ a.mtime ≤ b.mtime)))

/-- Modelled from the spec: the step ordering the specification claims
(section 4.2) — primarily by numeric sequence prefix ascending, falling back
to modification time.  Defined only for comparison with `locate_step`, which
is the translation of the code. -/
def locate_step_claimed (entries : List FsEntry) : Option String :=
  Option.map (fun e => e.name ++ "/")
    (lastElem (List.insertionSort seqOrder
      (entries.filter (fun e => stepNameMatch e.name && e.isDir))))

/-- Whether `pat` is an initial segment of `cs`. -/
def startsWithL : List Char → List Char → Bool
  | [], _ => true
  | _ :: _, [] => false
  | p :: ps, c :: cs => p == c && startsWithL ps cs

/-- Whether `pat` is a final segment of `cs`. -/
def endsWithL (pat cs : List Char) : Bool :=
  startsWithL pat (cs.drop (cs.length - pat.length))

/-- The candidate filter of `hardstart` (cli.py lines 586-587): the glob
`*.suf` combined with `re.match(r"md\.part\d{4}\.suf", basename)` — the name
ends in `.suf`, starts with `md.part`, has exactly four digits next, followed
again by `.suf` (the regex only anchors the start, the glob anchors the
end). -/
def partFileName (suf : String) (name : String) : Bool :=
  let cs := name.toList
  let ext := ("." ++ suf).toList
  endsWithL ext cs &&
  startsWithL "md.part".toList cs &&
  ((cs.drop 7).take 4).all Char.isDigit &&
  ((cs.drop 7).take 4).length == 4 &&
  startsWithL ext (cs.drop 11)

/-- Checkpoint candidates in a step directory listing. -/
def cpt_candidates (files : List FsEntry) : List FsEntry :=
  files.filter (fun f => partFileName "cpt" f.name)

/-- Topology/run-file candidates in a step directory listing. -/
def tpr_candidates (files : List FsEntry) : List FsEntry :=
  files.filter (fun f => partFileName "tpr" f.name)

/-- `hardstart` (cli.py lines 569-590).  `stateExists` is
`os.path.isfile('state.json')`; `entries` the working-directory listing;
`filesOf` gives the listing of a step directory; `gmxpaths` the externally
resolved tool paths.  `Except.ok doc` models the single `state.json` write at
line 590; `Except.error` models an exception raised before any write (the
empty candidate list raises, and an empty directory list makes `dns[-1]`
raise `IndexError`). -/
def hardstart (stateExists : Bool) (entries : List FsEntry)
    (filesOf : String → List FsEntry) (gmxpaths : List (String × String)) :
    Except String StateDoc :=
  if stateExists then Except.error ("cannot hard restart if state.json is here")
  else
    match locate_step entries with
    | none => Except.error ("IndexError: list index out of range")
    | some here =>
      match lastElem (sortByMtime (cpt_candidates (filesOf here))) with
      | none => Except.error ("cannot find a cpt file in " ++ here)
      | some cptFile =>
        match lastElem (sortByMtime (tpr_candidates (filesOf here))) with
        | none => Except.error ("cannot find a tpr file in " ++ here)
        | some tprFile =>
          Except.ok { here := here,
                      gmxpaths := gmxpaths,
                      history_gmx := [{ call := "mdrun",
                                        flags := [("-cpo", cptFile.name),
                                                  ("-s", tprFile.name)] }] }

/-- Outcome of an operation: an uncaught exception, a `sys.exit(1)`, or a
normal return (exit status zero). -/
inductive RunStatus where
  | raised (msg : String)
  | exitFail
  | completed
deriving Repr, DecidableEq

/-- `serial_number` (cli.py lines 182-199): reads `state.get('serial', None)`;
when that value is falsy (absent, or the integer 0) it draws `rng` and calls
`state_set_and_save` with it.  Returns the updated document and the list of
saved snapshots. -/
def serial_number (st : StateDoc) (rng : Nat) : StateDoc × List StateDoc :=
  match st.serial with
  | none => ({ st with serial := some rng }, [{ st with serial := some rng }])
  | some n =>
    if n = 0 then ({ st with serial := some rng }, [{ st with serial := some rng }])
    else (st, [])

/-- Result of `upload`: final in-memory document, the documents persisted by
each `state_set_and_save` call in order, and the process outcome. -/
structure UploadResult where
  state : StateDoc
  saves : List StateDoc
  status : RunStatus
deriving Repr, DecidableEq

/-- `upload` (cli.py lines 207-267).  `filesOk` abstracts the existence check
of the computed upload file list (lines 221-229, which raises when a file is
missing); `sure` and `accepts` decide whether the confirmed rsync runs
(line 247: `sure or input(...) not in 'nN'`); `dryExit` and `realExit` are
the exit codes of the dry-run and confirmed rsync processes.  Line 256 tests
`p.returncode == 0 and last_step` where `p` is the most recently started
process — the confirmed transfer when it ran, otherwise the dry run. -/
def upload (st0 : StateDoc) (rng : Nat) (filesOk sure accepts : Bool)
    (dryExit realExit : Nat) (remoteAlias rpath cwd ts : String) : UploadResult :=
  let sres := serial_number st0 rng
  let st := sres.1
  if filesOk then
    let code := if sure || accepts then realExit else dryExit
    if code = 0 then
      if st.here = "" then { state := st, saves := sres.2, status := .completed }
      else
        let destination := remoteAlias ++ ":" ++ rpath ++ "/" ++ cwd
        let thisUpload : SyncRecord := { src := none, dest := destination, when := ts }
        let st1 := { st with upload := some thisUpload }
        let st2 := { st1 with
          upload_history := some (st.upload_history.getD [] ++ [thisUpload]) }
        { state := st2, saves := sres.2 ++ [st1, st2], status := .completed }
    else { state := st, saves := sres.2, status := .exitFail }
  else { state := st, saves := sres.2,
         status := .raised ("could not find necessary upload files") }

/-- Result of `download`: final in-memory `amx.state`, the in-memory fetched
document after the merge when the merge is reached, persisted snapshots, and
the outcome. -/
structure DownloadResult where
  state : StateDoc
  merged : Option StateDoc
  saves : List StateDoc
  status : RunStatus
deriving Repr, DecidableEq

/-- `download` (cli.py lines 269-314).  The missing `upload` key raises
outside the try block; a nonzero dry-run exit raises inside it (caught,
`sys.exit(1)`).  The confirmed transfer runs when `sure or accepts`, but its
exit code `realExit` is never consulted (line 293 has no returncode check).
When `state.json` exists afterwards, the fetched document is merged: it
receives the held upload record only when it lacks one; a present
`upload_history` key raises (caught, exit 1); otherwise the held history list
is installed, the pull record appended to that shared list (so the append is
visible in `amx.state` exactly when `amx.state` itself carried the key), and
`statesave(amx.state)` persists `amx.state`, not the fetched document. -/
def download (st0 : StateDoc) (rng : Nat) (sure accepts : Bool)
    (dryExit realExit : Nat) (stateFileOnDisk : Bool) (fetched : StateDoc)
    (ts : String) : DownloadResult :=
  match st0.upload with
  | none => { state := st0, merged := none, saves := [],
              status := .raised ("cannot find upload key in the state") }
  | some held =>
    let sres := serial_number st0 rng
    let st := sres.1
    if sure = false ∧ dryExit ≠ 0 then
      { state := st, merged := none, saves := sres.2, status := .exitFail }
    else
      if stateFileOnDisk then
        let s1 := if fetched.upload = none then { fetched with upload := some held }
                  else fetched
        match fetched.upload_history with
        | some _ =>
          { state := st, merged := none, saves := sres.2, status := .exitFail }
        | none =>
          let heldHist := st0.upload_history.getD []
          let pullRec : SyncRecord := { src := some held.dest, dest := "here", when := ts }
          let s2 := { s1 with upload_history := some (heldHist ++ [pullRec]) }
          let stFin :=
            match st.upload_history with
            | none => st
            | some _ => { st with upload_history := some (heldHist ++ [pullRec]) }
          { state := stFin, merged := some s2, saves := sres.2 ++ [stFin],
            status := .completed }
      else { state := st, merged := none, saves := sres.2, status := .completed }

/-- ASCII uppercasing, modelling Python `str.upper()` on the ASCII keys used
by the machine configuration. -/
def pyUpper (s : String) : String :=
  (s.toList.map (fun c =>
    if 97 ≤ c.toNat ∧ c.toNat ≤ 122 then Char.ofNat (c.toNat - 32) else c)).asString

/-- Replace the leftmost, non-overlapping occurrences of `pat` in the
character list, fuel-bounded by the list length. -/
def replaceAllAux (pat rep : List Char) : Nat → List Char → List Char
  | _, [] => []
  | 0, cs => cs
  | fuel + 1, c :: cs =>
    if startsWithL pat (c :: cs) then
      rep ++ replaceAllAux pat rep fuel (List.drop pat.length (c :: cs))
    else c :: replaceAllAux pat rep fuel cs

/-- `re.sub(pat, rep, s)` for the literal (alphanumeric) patterns substituted
by `cluster`: every non-overlapping occurrence of `pat` in `s` is replaced by
`rep`, scanning left to right. -/
def replaceAll (s pat rep : String) : String :=
  if pat.toList.isEmpty then s
  else (replaceAllAux pat.toList rep.toList s.toList.length s.toList).asString

/-- The cluster-header substitution pass (cli.py line 356):
`for key, val in machine_configuration.items(): head = re.sub(key.upper(), str(val), head)`
— each key, in mapping iteration order, uppercased and substituted as a plain
pattern over the whole header. -/
def cluster_header_sub (head : String) (config : List (String × String)) : String :=
  config.foldl (fun acc kv => replaceAll acc (pyUpper kv.1) kv.2) head

/-- Like `replaceAllAux` but replaces at most `cnt` occurrences. -/
def replaceAllNAux (pat rep : List Char) : Nat → Nat → List Char → List Char
  | _, _, [] => []
  | 0, _, cs => cs
  | _, 0, cs => cs
  | fuel + 1, cnt + 1, c :: cs =>
    if startsWithL pat (c :: cs) then
      rep ++ replaceAllNAux pat rep fuel cnt (List.drop pat.length (c :: cs))
    else c :: replaceAllNAux pat rep fuel (cnt + 1) cs

/-- The settings substitution pass of `cluster` (cli.py line 412):
`re.sub(key.upper(), str(val), head, re.M)` — `re.M` (the integer 8) is
passed positionally as the count argument, so at most eight occurrences of
each uppercased key are replaced. -/
def cluster_settings_sub (head : String) (settings : List (String × String)) : String :=
  settings.foldl (fun acc kv =>
    if (pyUpper kv.1).toList.isEmpty then acc
    else (replaceAllNAux (pyUpper kv.1).toList kv.2.toList
      acc.toList.length 8 acc.toList).asString) head

/-- `runner/loadstate.py` lines 44-47: when `state.json` is absent the state
is an empty `DotDict`; when present, `json.load` is attempted under a bare
`try`/`except`, so a malformed file also yields an empty `DotDict`.  The
parse outcome is modelled by `parsed`; the function is total — no error
escapes. -/
def loadstate_state (fileOnDisk : Bool) (parsed : Except String StateDoc) : StateDoc :=
  if fileOnDisk then
    match parsed with
    | Except.ok d => d
    | Except.error _ => {}
  else {}


/-! ## Helper lemmas -/

theorem mem_of_lastElem {α : Type} : ∀ {l : List α} {e : α}, lastElem l = some e → e ∈ l := by
  intro l
  induction l with
  | nil => intro e h; simp [lastElem] at h
  | cons a t ih =>
    intro e h
    cases t with
    | nil =>
      simp [lastElem] at h
      subst h
      exact List.mem_cons_self a []
    | cons b u =>
      have h2 : lastElem (b :: u) = some e := h
      exact List.mem_cons_of_mem a (ih h2)

theorem lastElem_isSome {α : Type} : ∀ (l : List α), l ≠ [] → ∃ e, lastElem l = some e := by
  intro l
  induction l with
  | nil => intro h; exact absurd rfl h
  | cons a t ih =>
    intro _
    cases t with
    | nil => exact ⟨a, rfl⟩
    | cons b u =>
      obtain ⟨e, he⟩ := ih (by simp)
      exact ⟨e, he⟩

theorem pairwise_le_lastElem :
    ∀ {l : List FsEntry} {e : FsEntry}, List.Pairwise mtLe l → lastElem l = some e →
      ∀ x ∈ l, x.mtime ≤ e.mtime := by
  intro l
  induction l with
  | nil => intro e _ h; simp [lastElem] at h
  | cons a t ih =>
    intro e hp hl x hx
    cases t with
    | nil =>
      simp [lastElem] at hl
      subst hl
      rcases List.mem_singleton.mp hx with rfl
      exact Nat.le_refl _
    | cons b u =>
      have hl2 : lastElem (b :: u) = some e := hl
      rcases List.pairwise_cons.mp hp with ⟨ha, hp2⟩
      rcases List.mem_cons.mp hx with rfl | hx2
      · exact ha e (mem_of_lastElem hl2)
      · exact ih hp2 hl2 x hx2

theorem sortByMtime_lastElem_max {l : List FsEntry} {e : FsEntry}
    (h : lastElem (sortByMtime l) = some e) :
    e ∈ l ∧ ∀ x ∈ l, x.mtime ≤ e.mtime := by
  have hperm := List.perm_insertionSort mtLe l
  have hsort := List.sorted_insertionSort mtLe l
  constructor
  · exact hperm.mem_iff.mp (mem_of_lastElem h)
  · intro x hx
    exact pairwise_le_lastElem hsort h x (hperm.mem_iff.mpr hx)

theorem sortByMtime_eq_nil {l : List FsEntry} : sortByMtime l = [] ↔ l = [] := by
  constructor
  · intro h
    have hlen := (List.perm_insertionSort mtLe l).length_eq
    rw [sortByMtime] at h
    rw [h] at hlen
    exact List.length_eq_zero.mp hlen.symm
  · intro h; subst h; rfl

theorem sortByMtime_lastElem_none {l : List FsEntry} :
    lastElem (sortByMtime l) = none ↔ l = [] := by
  constructor
  · intro h
    by_contra hne
    obtain ⟨e, he⟩ := lastElem_isSome (sortByMtime l)
      (fun hnil => hne (sortByMtime_eq_nil.mp hnil))
    rw [he] at h
    cases h
  · intro h; subst h; rfl

theorem serial_number_fields (st : StateDoc) (rng : Nat) :
    (serial_number st rng).1.here = st.here ∧
    (serial_number st rng).1.upload = st.upload ∧
    (serial_number st rng).1.upload_history = st.upload_history := by
  cases hs : st.serial with
  | none => simp [serial_number, hs]
  | some n => by_cases h : n = 0 <;> simp [serial_number, hs, h]

/-! ## Claim theorems -/

/-- Claim C10: loading the state document never raises for a
present-but-malformed state file: when `state.json` exists but cannot be
parsed as JSON, the load silently yields an empty default document, exactly
as when the file is absent; a successful parse is returned as is.  The model
`loadstate_state` is total, mirroring the bare `try`/`except` of
`runner/loadstate.py` lines 44-47 through which no error escapes. -/
theorem c10_loadstate_malformed_silently_empty :
    (∀ msg : String, loadstate_state true (Except.error msg) = {}) ∧
    (∀ p : Except String StateDoc, loadstate_state false p = {}) ∧
    (∀ d : StateDoc, loadstate_state true (Except.ok d) = d) ∧
    (∀ msg : String,
      loadstate_state true (Except.error msg) = loadstate_state false (Except.ok {})) :=
  ⟨fun _ => rfl, fun _ => rfl, fun _ => rfl, fun _ => rfl⟩

/-- Claim C4 counterexample: rendering is not whole-token.  The template
`NPROCS=NPROCS_PLACEHOLDER` with the single token `nprocs = 64` is rendered
by the cluster-header substitution to `64=64_PLACEHOLDER`: the occurrence of
`NPROCS` inside the longer token `NPROCS_PLACEHOLDER` is corrupted, contrary
to the claim. -/
theorem c4_counterexample :
    cluster_header_sub "NPROCS=NPROCS_PLACEHOLDER" [("nprocs", "64")] = "64=64_PLACEHOLDER" ∧
    cluster_header_sub "NPROCS=NPROCS_PLACEHOLDER" [("nprocs", "64")] ≠ "64=NPROCS_PLACEHOLDER" :=
  ⟨rfl, by decide⟩

/-- Claim C4 (amended): rendering applies the keys in the token table
iteration order — not longest first — replacing every occurrence of the
uppercased key as a plain substring, not as a whole token, so a substitution
can corrupt a longer token that contains the key: the scenario template
yields `64=64_PLACEHOLDER`, and with `procs` listed before `nprocs` the
substitution of `PROCS` destroys the `NPROCS` token (giving `N8`); a key
occurring as a standalone token is still replaced as expected; the settings
pass (count limited to eight by the misplaced `re.M` argument) behaves the
same on these inputs. -/
theorem c4_render_substring_in_order :
    cluster_header_sub "NPROCS=NPROCS_PLACEHOLDER" [("nprocs", "64")] = "64=64_PLACEHOLDER" ∧
    cluster_header_sub "NPROCS" [("procs", "8"), ("nprocs", "64")] = "N8" ∧
    cluster_header_sub "abc NPROCS xyz" [("nprocs", "64")] = "abc 64 xyz" ∧
    cluster_settings_sub "NPROCS=NPROCS_PLACEHOLDER" [("nprocs", "64")] = "64=64_PLACEHOLDER" :=
  ⟨rfl, rfl, rfl, rfl⟩

/-- Claim C5 counterexample: the step locator orders by modification time
only.  With `s003-run` (mtime 100) and `s002-b` (mtime 200) the code returns
`s002-b/`, while the ordering asserted by the claim (numeric sequence prefix
primary, mtime tie-break) would return `s003-run/`. -/
theorem c5_counterexample :
    locate_step [⟨"s003-run", 100, true⟩, ⟨"s002-b", 200, true⟩] = some "s002-b/" ∧
    locate_step_claimed [⟨"s003-run", 100, true⟩, ⟨"s002-b", 200, true⟩] = some "s003-run/" ∧
    locate_step [⟨"s003-run", 100, true⟩, ⟨"s002-b", 200, true⟩] ≠
      locate_step_claimed [⟨"s003-run", 100, true⟩, ⟨"s002-b", 200, true⟩] :=
  ⟨rfl, rfl, by decide⟩

/-- Claim C5 (amended): the current step is located by enumerating
subdirectories matching `s<digits>-<name>`, ordering them by filesystem
modification time ascending only — the numeric sequence prefix takes part
solely in the name filter, not in the ordering — and returning the most
recent; when no subdirectory matches, no step is produced (the empty list
makes the operation fail). -/
theorem c5_locate_step_mtime_order (entries : List FsEntry) :
    (locate_step entries = none ↔
      entries.filter (fun e => stepNameMatch e.name && e.isDir) = []) ∧
    (∀ s, locate_step entries = some s →
      ∃ e, e ∈ entries.filter (fun e => stepNameMatch e.name && e.isDir) ∧
        s = e.name ++ "/" ∧
        ∀ x ∈ entries.filter (fun e => stepNameMatch e.name && e.isDir),
          x.mtime ≤ e.mtime) := by
  constructor
  · constructor
    · intro h
      unfold locate_step at h
      cases hl : lastElem (sortByMtime
          (entries.filter (fun e => stepNameMatch e.name && e.isDir))) with
      | none => exact sortByMtime_lastElem_none.mp hl
      | some e => rw [hl] at h; cases h
    · intro h
      unfold locate_step
      rw [h]
      rfl
  · intro s hs
    unfold locate_step at hs
    cases hl : lastElem (sortByMtime
        (entries.filter (fun e => stepNameMatch e.name && e.isDir))) with
    | none => rw [hl] at hs; cases hs
    | some e =>
      rw [hl] at hs
      obtain ⟨hmem, hmax⟩ := sortByMtime_lastElem_max hl
      refine ⟨e, hmem, ?_, hmax⟩
      cases hs
      rfl

/-- Claim C5 witness: a concrete run of the amended statement, on the
two-directory listing of the counterexample. -/
theorem c5_locate_step_mtime_order_witness :
    locate_step [⟨"s003-run", 100, true⟩, ⟨"s002-b", 200, true⟩] = some "s002-b/" ∧
    ∃ e, e ∈ ([⟨"s003-run", 100, true⟩, ⟨"s002-b", 200, true⟩] : List FsEntry).filter
        (fun e => stepNameMatch e.name && e.isDir) ∧
      "s002-b/" = e.name ++ "/" ∧
      ∀ x ∈ ([⟨"s003-run", 100, true⟩, ⟨"s002-b", 200, true⟩] : List FsEntry).filter
          (fun e => stepNameMatch e.name && e.isDir),
        x.mtime ≤ e.mtime :=
  ⟨rfl, (c5_locate_step_mtime_order _).2 "s002-b/" rfl⟩


/-- Claim C1 counterexample: the state document records an upload that was
never confirmed.  With `sure = false`, a dry run that exits zero, and the
user declining the confirmation prompt, no confirmed transfer runs at all —
yet line 256 consults the returncode of the dry-run process, so `upload`
sets `uploadRecord`, appends to `uploadHistory`, and does so in two
`state_set_and_save` calls rather than the claimed single one. -/
theorem c1_counterexample :
    (upload ({ here := "s001-protein/", serial := some 5 } : StateDoc) 7 true false false
      0 1 "cluster" "~" "job" "2024.01.01.0000").state.upload_history =
      some [{ src := none, dest := "cluster:~/job", when := "2024.01.01.0000" }] ∧
    ({ here := "s001-protein/", serial := some 5 } : StateDoc).upload_history = none ∧
    (upload ({ here := "s001-protein/", serial := some 5 } : StateDoc) 7 true false false
      0 1 "cluster" "~" "job" "2024.01.01.0000").saves.length = 2 ∧
    (upload ({ here := "s001-protein/", serial := some 5 } : StateDoc) 7 true false false
      0 1 "cluster" "~" "job" "2024.01.01.0000").status = RunStatus.completed :=
  ⟨rfl, rfl, rfl, rfl⟩

/-- Claim C1 (amended): `upload` mutates the upload fields exactly when the
transfer process it last ran — the confirmed transfer when `sure` or the
user accepts, otherwise the dry run — exits with status zero and a step
directory is recorded; it then sets `uploadRecord` and appends the
SyncRecord to `uploadHistory` in two consecutive `state_set_and_save` calls
(not one).  On a nonzero exit of that process it leaves the upload fields
untouched, appends nothing, and exits with nonzero status (the serial may
still have been assigned and saved beforehand when it was unset). -/
theorem c1_upload_mutation (st : StateDoc) (rng : Nat) (sure accepts : Bool)
    (dryExit realExit : Nat) (remoteAlias rpath cwd ts : String) :
    ((if sure || accepts then realExit else dryExit) ≠ 0 →
      (upload st rng true sure accepts dryExit realExit remoteAlias rpath cwd ts).status =
        RunStatus.exitFail ∧
      (upload st rng true sure accepts dryExit realExit remoteAlias rpath cwd ts).state.upload =
        st.upload ∧
      (upload st rng true sure accepts dryExit realExit
        remoteAlias rpath cwd ts).state.upload_history = st.upload_history ∧
      (upload st rng true sure accepts dryExit realExit remoteAlias rpath cwd ts).saves =
        (serial_number st rng).2) ∧
    ((if sure || accepts then realExit else dryExit) = 0 → st.here ≠ "" →
      (upload st rng true sure accepts dryExit realExit remoteAlias rpath cwd ts).status =
        RunStatus.completed ∧
      (upload st rng true sure accepts dryExit realExit remoteAlias rpath cwd ts).state.upload =
        some { src := none, dest := remoteAlias ++ ":" ++ rpath ++ "/" ++ cwd, when := ts } ∧
      (upload st rng true sure accepts dryExit realExit
          remoteAlias rpath cwd ts).state.upload_history =
        some (st.upload_history.getD [] ++
          [{ src := none, dest := remoteAlias ++ ":" ++ rpath ++ "/" ++ cwd, when := ts }]) ∧
      (upload st rng true sure accepts dryExit realExit remoteAlias rpath cwd ts).saves.length =
        (serial_number st rng).2.length + 2) := by
  obtain ⟨hh, hu, hl⟩ := serial_number_fields st rng
  constructor
  · intro hc
    have hc2 : (if sure = true ∨ accepts = true then realExit else dryExit) ≠ 0 := by
      simpa using hc
    simp [upload, hc2, hu, hl]
  · intro hc hhere
    have hc2 : (if sure = true ∨ accepts = true then realExit else dryExit) = 0 := by
      simpa using hc
    have hhere2 : ¬ (serial_number st rng).1.here = "" := by rw [hh]; exact hhere
    simp [upload, hc2, hhere2, hu, hl]

/-- Claim C1 witness: the failure branch of the amended statement at a
concrete input — a confirmed transfer exiting 1 leaves the upload fields
untouched and the operation exits nonzero. -/
theorem c1_upload_mutation_witness :
    ((if (true || false : Bool) then (1 : Nat) else 0) ≠ 0) ∧
    (upload ({ here := "s001-x/", serial := some 5 } : StateDoc) 7 true true false
      0 1 "a" "~" "j" "ts").status = RunStatus.exitFail :=
  ⟨by decide,
   ((c1_upload_mutation ({ here := "s001-x/", serial := some 5 } : StateDoc) 7 true false
      0 1 "a" "~" "j" "ts").1 (by decide)).1⟩

/-- Claim C2 (code bug): `download` writes a state record describing the
pull even though the confirmed transfer process exited nonzero.  With
`sure = true` no dry run happens and the confirmed rsync exit code (23) is
never consulted (cli.py line 293), so the pull record is appended to the
held history and persisted by `statesave`, and the operation completes with
exit status zero. -/
theorem c2_download_records_failed_pull :
    (download
      ({ here := "s001-x/", serial := some 5,
         upload := some { src := none, dest := "host:/scratch/job7", when := "2024.01.01.1200" },
         upload_history := some [{ src := none, dest := "host:/scratch/job7",
                                   when := "2024.01.01.1200" }] } : StateDoc)
      7 true false 0 23 true {} "2024.02.02.0000").status = RunStatus.completed ∧
    (download
      ({ here := "s001-x/", serial := some 5,
         upload := some { src := none, dest := "host:/scratch/job7", when := "2024.01.01.1200" },
         upload_history := some [{ src := none, dest := "host:/scratch/job7",
                                   when := "2024.01.01.1200" }] } : StateDoc)
      7 true false 0 23 true {} "2024.02.02.0000").saves =
      [{ here := "s001-x/", serial := some 5,
         upload := some { src := none, dest := "host:/scratch/job7", when := "2024.01.01.1200" },
         upload_history := some [{ src := none, dest := "host:/scratch/job7",
                                   when := "2024.01.01.1200" },
                                 { src := some "host:/scratch/job7", dest := "here",
                                   when := "2024.02.02.0000" }] }] ∧
    (23 : Nat) ≠ 0 :=
  ⟨rfl, rfl, by decide⟩

/-- Claim C3: after a successful download, the held `uploadRecord` and
`uploadHistory` are merged into the fetched document only when the fetched
document lacks the respective keys; when the fetched document carries an
`upload_history` key (in particular any non-empty, conflicting history), the
merge raises instead of resolving or overwriting, the pull is not persisted,
and `download` exits with nonzero status. -/
theorem c3_download_history_merge (st fetched : StateDoc) (rng : Nat)
    (sure accepts : Bool) (dryExit realExit : Nat) (ts : String) (held : SyncRecord)
    (hu : st.upload = some held) (hok : sure = true ∨ dryExit = 0) :
    ((∃ h, fetched.upload_history = some h) →
      (download st rng sure accepts dryExit realExit true fetched ts).status =
        RunStatus.exitFail ∧
      (download st rng sure accepts dryExit realExit true fetched ts).merged = none ∧
      (download st rng sure accepts dryExit realExit true fetched ts).saves =
        (serial_number st rng).2) ∧
    (fetched.upload_history = none →
      (download st rng sure accepts dryExit realExit true fetched ts).merged = some
        { (if fetched.upload = none then { fetched with upload := some held } else fetched) with
          upload_history := some (st.upload_history.getD [] ++
            [{ src := some held.dest, dest := "here", when := ts }]) }) := by
  have hnd : ¬ (sure = false ∧ dryExit ≠ 0) := by
    rcases hok with h | h
    · intro hx; rw [h] at hx; cases hx.1
    · intro hx; exact hx.2 h
  constructor
  · rintro ⟨hist, hh⟩
    by_cases hd : sure = false ∧ dryExit ≠ 0
    · simp [download, hu, hd]
    · simp [download, hu, hd, hh]
  · intro hh
    simp [download, hu, hnd, hh]

/-- Claim C3 witness: a fetched document already carrying an
`upload_history` key makes the concrete download fail without persisting the
pull. -/
theorem c3_download_history_merge_witness :
    (∃ h, ({ upload_history := some [] } : StateDoc).upload_history = some h) ∧
    (download
      ({ here := "s001-x/", serial := some 5,
         upload := some { src := none, dest := "host:/scratch/job7", when := "2024.01.01.1200" },
         upload_history := some [{ src := none, dest := "host:/scratch/job7",
                                   when := "2024.01.01.1200" }] } : StateDoc)
      7 true false 0 0 true ({ upload_history := some [] } : StateDoc) "ts").status =
      RunStatus.exitFail :=
  ⟨⟨[], rfl⟩,
   ((c3_download_history_merge
      ({ here := "s001-x/", serial := some 5,
         upload := some { src := none, dest := "host:/scratch/job7", when := "2024.01.01.1200" },
         upload_history := some [{ src := none, dest := "host:/scratch/job7",
                                   when := "2024.01.01.1200" }] } : StateDoc)
      ({ upload_history := some [] } : StateDoc) 7 true false 0 0 "ts"
      { src := none, dest := "host:/scratch/job7", when := "2024.01.01.1200" }
      rfl (Or.inl rfl)).1 ⟨[], rfl⟩).1⟩

/-- Claim C6: when the located step directory has checkpoint candidates but
no topology candidate (or the other way round), `hardstart` raises the
missing-artifact error naming the kind and the directory, and since the only
`state.json` write happens after both checks, nothing is written. -/
theorem c6_missing_artifact (entries : List FsEntry) (filesOf : String → List FsEntry)
    (gmx : List (String × String)) (here : String)
    (hstep : locate_step entries = some here) :
    (cpt_candidates (filesOf here) = [] →
      hardstart false entries filesOf gmx =
        Except.error ("cannot find a cpt file in " ++ here)) ∧
    (cpt_candidates (filesOf here) ≠ [] → tpr_candidates (filesOf here) = [] →
      hardstart false entries filesOf gmx =
        Except.error ("cannot find a tpr file in " ++ here)) := by
  constructor
  · intro hc
    have hnone : lastElem (sortByMtime (cpt_candidates (filesOf here))) = none := by
      rw [hc]; rfl
    simp [hardstart, hstep, hnone]
  · intro hc ht
    obtain ⟨c, hcl⟩ := lastElem_isSome (sortByMtime (cpt_candidates (filesOf here)))
      (fun hnil => hc (sortByMtime_eq_nil.mp hnil))
    have htnone : lastElem (sortByMtime (tpr_candidates (filesOf here))) = none := by
      rw [ht]; rfl
    simp [hardstart, hstep, hcl, htnone]

/-- Claim C6 witness: a step directory with one checkpoint file and no
topology file makes the concrete reconstruction fail with the
missing-artifact error for the tpr kind. -/
theorem c6_missing_artifact_witness :
    cpt_candidates ((fun _ => [⟨"md.part0002.cpt", 10, false⟩]) "s003-run/") ≠ [] ∧
    tpr_candidates ((fun _ => [⟨"md.part0002.cpt", 10, false⟩]) "s003-run/") = [] ∧
    hardstart false [⟨"s003-run", 50, true⟩] (fun _ => [⟨"md.part0002.cpt", 10, false⟩]) [] =
      Except.error ("cannot find a tpr file in " ++ "s003-run/") :=
  ⟨by decide, rfl,
   (c6_missing_artifact [⟨"s003-run", 50, true⟩] (fun _ => [⟨"md.part0002.cpt", 10, false⟩])
      [] "s003-run/" rfl).2 (by decide) rfl⟩

/-- Claim C7: on success, reconstruction sorts each candidate list by
modification time ascending and records the most recent checkpoint and
topology files as the flag values of the single synthetic `history_gmx`
entry. -/
theorem c7_checkpoint_most_recent (entries : List FsEntry) (filesOf : String → List FsEntry)
    (gmx : List (String × String)) (here : String)
    (hstep : locate_step entries = some here)
    (hcpt : cpt_candidates (filesOf here) ≠ [])
    (htpr : tpr_candidates (filesOf here) ≠ []) :
    ∃ cptFile tprFile : FsEntry,
      hardstart false entries filesOf gmx = Except.ok
        { here := here, gmxpaths := gmx,
          history_gmx := [{ call := "mdrun",
                            flags := [("-cpo", cptFile.name), ("-s", tprFile.name)] }] } ∧
      cptFile ∈ cpt_candidates (filesOf here) ∧
      (∀ x ∈ cpt_candidates (filesOf here), x.mtime ≤ cptFile.mtime) ∧
      tprFile ∈ tpr_candidates (filesOf here) ∧
      (∀ x ∈ tpr_candidates (filesOf here), x.mtime ≤ tprFile.mtime) := by
  obtain ⟨c, hcl⟩ := lastElem_isSome (sortByMtime (cpt_candidates (filesOf here)))
    (fun hnil => hcpt (sortByMtime_eq_nil.mp hnil))
  obtain ⟨t, htl⟩ := lastElem_isSome (sortByMtime (tpr_candidates (filesOf here)))
    (fun hnil => htpr (sortByMtime_eq_nil.mp hnil))
  obtain ⟨hcm, hcmax⟩ := sortByMtime_lastElem_max hcl
  obtain ⟨htm, htmax⟩ := sortByMtime_lastElem_max htl
  refine ⟨c, t, ?_, hcm, hcmax, htm, htmax⟩
  simp [hardstart, hstep, hcl, htl]

/-- Claim C7 witness: the scenario of the claim — `md.part0002.cpt` (older,
mtime 10) and `md.part0003.cpt` (newer, mtime 20) plus a matching tpr file —
selects `md.part0003.cpt` as the `-cpo` flag value. -/
theorem c7_checkpoint_most_recent_witness :
    hardstart false [⟨"s003-run", 50, true⟩]
      (fun _ => [⟨"md.part0002.cpt", 10, false⟩, ⟨"md.part0003.cpt", 20, false⟩,
                 ⟨"md.part0003.tpr", 15, false⟩]) [("gmx", "/usr/bin/gmx")] =
      Except.ok { here := "s003-run/", gmxpaths := [("gmx", "/usr/bin/gmx")],
                  history_gmx := [{ call := "mdrun",
                                    flags := [("-cpo", "md.part0003.cpt"),
                                              ("-s", "md.part0003.tpr")] }] } ∧
    (∃ cptFile tprFile : FsEntry,
      hardstart false [⟨"s003-run", 50, true⟩]
        (fun _ => [⟨"md.part0002.cpt", 10, false⟩, ⟨"md.part0003.cpt", 20, false⟩,
                   ⟨"md.part0003.tpr", 15, false⟩]) [("gmx", "/usr/bin/gmx")] = Except.ok
        { here := "s003-run/", gmxpaths := [("gmx", "/usr/bin/gmx")],
          history_gmx := [{ call := "mdrun",
                            flags := [("-cpo", cptFile.name), ("-s", tprFile.name)] }] } ∧
      cptFile ∈ cpt_candidates ((fun _ => [⟨"md.part0002.cpt", 10, false⟩,
        ⟨"md.part0003.cpt", 20, false⟩, ⟨"md.part0003.tpr", 15, false⟩]) "s003-run/") ∧
      (∀ x ∈ cpt_candidates ((fun _ => [⟨"md.part0002.cpt", 10, false⟩,
          ⟨"md.part0003.cpt", 20, false⟩, ⟨"md.part0003.tpr", 15, false⟩]) "s003-run/"),
        x.mtime ≤ cptFile.mtime) ∧
      tprFile ∈ tpr_candidates ((fun _ => [⟨"md.part0002.cpt", 10, false⟩,
        ⟨"md.part0003.cpt", 20, false⟩, ⟨"md.part0003.tpr", 15, false⟩]) "s003-run/") ∧
      (∀ x ∈ tpr_candidates ((fun _ => [⟨"md.part0002.cpt", 10, false⟩,
          ⟨"md.part0003.cpt", 20, false⟩, ⟨"md.part0003.tpr", 15, false⟩]) "s003-run/"),
        x.mtime ≤ tprFile.mtime)) :=
  ⟨rfl,
   c7_checkpoint_most_recent [⟨"s003-run", 50, true⟩]
     (fun _ => [⟨"md.part0002.cpt", 10, false⟩, ⟨"md.part0003.cpt", 20, false⟩,
                ⟨"md.part0003.tpr", 15, false⟩]) [("gmx", "/usr/bin/gmx")] "s003-run/"
     rfl (by decide) (by decide)⟩

/-- Claim C8 (code bug): a serial of 0 — a legitimate outcome of
`random.randint(0, 10**9)` — is falsy, so `serial_number` treats the
already-set serial as absent, draws a new one and saves it: an upload
invocation on a state with `serial = 0` reassigns the serial to the fresh
draw 7 and persists that reassignment. -/
theorem c8_serial_zero_reassigned :
    ({ here := "s001-x/", serial := some 0 } : StateDoc).serial = some 0 ∧
    (upload ({ here := "s001-x/", serial := some 0 } : StateDoc) 7 true true false
      0 1 "a" "~" "j" "ts").state.serial = some 7 ∧
    (upload ({ here := "s001-x/", serial := some 0 } : StateDoc) 7 true true false
      0 1 "a" "~" "j" "ts").saves = [{ here := "s001-x/", serial := some 7 }] ∧
    (7 : Nat) ≠ 0 :=
  ⟨rfl, rfl, rfl, by decide⟩

/-- Claim C9: `hardstart` refuses to run when a state document already
exists, before taking any other action; otherwise, whenever a step is
located and both artifact kinds have candidates, it writes exactly one fresh
state document carrying the step path, the tool paths, and a single
synthetic `history_gmx` entry for `mdrun`. -/
theorem c9_hardstart_precondition (entries : List FsEntry) (filesOf : String → List FsEntry)
    (gmx : List (String × String)) :
    hardstart true entries filesOf gmx =
      Except.error ("cannot hard restart if state.json is here") ∧
    (∀ here, locate_step entries = some here →
      cpt_candidates (filesOf here) ≠ [] →
      tpr_candidates (filesOf here) ≠ [] →
      ∃ doc, hardstart false entries filesOf gmx = Except.ok doc ∧
        doc.here = here ∧ doc.gmxpaths = gmx ∧
        doc.history_gmx.length = 1 ∧ doc.history_gmx.map GmxCall.call = ["mdrun"]) := by
  constructor
  · rfl
  · intro here hstep hcpt htpr
    obtain ⟨c, hcl⟩ := lastElem_isSome (sortByMtime (cpt_candidates (filesOf here)))
      (fun hnil => hcpt (sortByMtime_eq_nil.mp hnil))
    obtain ⟨t, htl⟩ := lastElem_isSome (sortByMtime (tpr_candidates (filesOf here)))
      (fun hnil => htpr (sortByMtime_eq_nil.mp hnil))
    refine ⟨{ here := here, gmxpaths := gmx,
              history_gmx := [{ call := "mdrun",
                                flags := [("-cpo", c.name), ("-s", t.name)] }] }, ?_,
            rfl, rfl, rfl, rfl⟩
    simp [hardstart, hstep, hcl, htl]

/-- Claim C9 witness: the precondition branch and one successful
reconstruction at concrete inputs. -/
theorem c9_hardstart_precondition_witness :
    hardstart true [] (fun _ => []) [] =
      Except.error ("cannot hard restart if state.json is here") ∧
    (∃ doc, hardstart false [⟨"s003-run", 50, true⟩]
        (fun _ => [⟨"md.part0002.cpt", 10, false⟩, ⟨"md.part0003.tpr", 15, false⟩]) [] =
        Except.ok doc ∧
      doc.here = "s003-run/" ∧ doc.gmxpaths = ([] : List (String × String)) ∧
      doc.history_gmx.length = 1 ∧ doc.history_gmx.map GmxCall.call = ["mdrun"]) :=
  ⟨(c9_hardstart_precondition [] (fun _ => []) []).1,
   (c9_hardstart_precondition [⟨"s003-run", 50, true⟩]
      (fun _ => [⟨"md.part0002.cpt", 10, false⟩, ⟨"md.part0003.tpr", 15, false⟩]) []).2
     "s003-run/" rfl (by decide) (by decide)⟩

end Amx
